import Mathlib

/-!
Shallow embedding of `src/api_server.py` (gunsh1/rhyme-search-api).

The repository exposes a `RhymeSearchGPT` class with three pure methods
(rhyme search, phonetic analysis, rap-lyric generation) and FastAPI
endpoints wrapping them.  Python strings are modelled as Lean `String`
(both are sequences of Unicode scalar values, so `len` agrees with
`String.length`), Python dict results as Lean structures, the static
rhyme dictionary as an association list, and Python list slicing
`xs[:n]` for a nonnegative `n` as `List.take n`.  The unused
`phonetic_similarity : float` parameter is kept as a `Float` argument,
and the unused `detailed : bool` parameter as a `Bool` argument.
-/

/-- The static rhyme dictionary `self.sample_rhymes` built in
`RhymeSearchGPT.__init__` (api_server.py lines 20-28), as an association
list in the source's insertion order. -/
def sample_rhymes : List (String × List String) :=
  [ ("愛", ["開", "海", "貝", "回", "会", "買", "台", "態", "代"]),
    ("夢", ["雲", "組", "込", "積", "詰", "摘", "潜"]),
    ("光", ["理", "利", "力", "切", "着", "勝", "立"]),
    ("心", ["信", "新", "真", "進", "親", "針", "芯"]),
    ("歌", ["花", "香", "菓", "話", "価", "華", "化"]),
    ("希望", ["未来", "期待", "願い", "目標", "夢想", "理想"]),
    ("桜", ["花", "春", "美", "優", "香", "雅"]) ]

/-- Python `self.sample_rhymes.get(word, default)`: the stored value when
`word` is a key (even if that value were empty), otherwise `default`. -/
def sampleRhymesGet (word : String) (default : List String) : List String :=
  match sample_rhymes.lookup word with
  | some l => l
  | none => default

/-- Python `word[-1] if word else ""` (api_server.py line 41): the last
character of `word` as a one-character string, or `""` when `word` is empty. -/
def lastCharStr (word : String) : String :=
  match word.data.getLast? with
  | some c => String.mk [c]
  | none => ""

/-- The `phonetic_analysis` sub-dict of a search result
(api_server.py lines 39-43). -/
structure PhoneticAnalysis where
  mora_count : Nat
  ending_vowel : String
  vowel_pattern : String
deriving DecidableEq

/-- The dict returned by `RhymeSearchGPT.search_rhymes_for_gpt`
(api_server.py lines 34-46). -/
structure SearchResult where
  status : String
  query_word : String
  rhymes : List String
  ai_suggestions : List String
  phonetic_analysis : PhoneticAnalysis
  total_results : Nat
  usage_examples : List String
deriving DecidableEq

/-- `RhymeSearchGPT.search_rhymes_for_gpt` (api_server.py lines 30-46).
`phonetic_similarity` is accepted and never read, exactly as in the source. -/
def search_rhymes_for_gpt (word : String) (max_results : Nat)
    (phonetic_similarity : Float) : SearchResult :=
  let rhymes := (sampleRhymesGet word [word ++ "音", word ++ "韻", "類似"]).take max_results
  { status := "success"
    query_word := word
    rhymes := rhymes
    ai_suggestions := ["AI" ++ word, "新" ++ word, "心" ++ word]
    phonetic_analysis :=
      { mora_count := word.length
        ending_vowel := lastCharStr word
        vowel_pattern := "模擬パターン" }
    total_results := rhymes.length
    usage_examples := [word ++ "を使った例文1", word ++ "を使った例文2"] }

/-- The Japanese vowel characters of the literal `"あいうえお"` used by
`analyze_phonetics_for_gpt` (api_server.py lines 58-59). -/
def jpVowels : List Char := "あいうえお".data

/-- The `phonetic_features` sub-dict of a phonetic analysis result
(api_server.py lines 57-60). -/
structure PhoneticFeatures where
  consonants : Nat
  vowels : Nat
deriving DecidableEq

/-- The dict returned by `RhymeSearchGPT.analyze_phonetics_for_gpt`
(api_server.py lines 50-61).  Python `list(word)` is the list of the
word's characters. -/
structure PhoneticResult where
  status : String
  word : String
  mora_count : Nat
  syllable_structure : List Char
  vowel_pattern : String
  rhyme_class : String
  phonetic_features : PhoneticFeatures
deriving DecidableEq

/-- `RhymeSearchGPT.analyze_phonetics_for_gpt` (api_server.py lines 48-61).
`detailed` is accepted and never read, exactly as in the source. -/
def analyze_phonetics_for_gpt (word : String) (detailed : Bool) : PhoneticResult :=
  { status := "success"
    word := word
    mora_count := word.length
    syllable_structure := word.data
    vowel_pattern := "模擬パターン"
    rhyme_class := word ++ "クラス"
    phonetic_features :=
      { consonants := (word.data.filter (fun c => !(jpVowels.contains c))).length
        vowels := (word.data.filter (fun c => jpVowels.contains c)).length } }

/-- The `rhyme_analysis` sub-dict of a rap result (api_server.py lines 85-88). -/
structure RhymeAnalysis where
  rhyme_scheme : String
  mora_pattern : String
deriving DecidableEq

/-- The dict returned by `RhymeSearchGPT.generate_rap_suggestions_for_gpt`
(api_server.py lines 80-92). -/
structure RapResult where
  status : String
  theme : String
  style : String
  lyrics : List String
  rhyme_analysis : RhymeAnalysis
  used_rhyme_words : List String
  suggested_flow : String
  alternative_versions : List String
deriving DecidableEq

/-- The fixed 8-line template list of `generate_rap_suggestions_for_gpt`
(api_server.py lines 69-78), each line interpolating `theme`. -/
def rap_lyric_templates (theme : String) : List String :=
  [ theme ++ "への道のり、心に刻む",
    "困難を乗り越え、" ++ theme ++ "を見つめ",
    "夢と現実、" ++ theme ++ "が導く",
    "前進あるのみ、" ++ theme ++ "とともに",
    "光差す未来、" ++ theme ++ "を信じて",
    "歩み続ける、" ++ theme ++ "の力で",
    "希望の歌声、" ++ theme ++ "響かせ",
    "新たな明日、" ++ theme ++ "と歩もう" ]

/-- `RhymeSearchGPT.generate_rap_suggestions_for_gpt` (api_server.py lines
63-92).  `rhyme_words : Option (List String)` models the Python default
`rhyme_words: List[str] = None`; `style` and `max_lines` model the values
produced by `kwargs.get("style", "modern")` and `kwargs.get("max_lines", 8)`.
Python `rhyme_words or [theme]` yields `[theme]` when `rhyme_words` is
`None` or the empty list (both are falsy), and `rhyme_words` otherwise. -/
def generate_rap_suggestions_for_gpt (theme : String)
    (rhyme_words : Option (List String)) (style : String) (max_lines : Nat) :
    RapResult :=
  let lyrics := (rap_lyric_templates theme).take max_lines
  { status := "success"
    theme := theme
    style := style
    lyrics := lyrics
    rhyme_analysis := { rhyme_scheme := "ABAB", mora_pattern := "7-7-7-7" }
    used_rhyme_words :=
      match rhyme_words with
      | none => [theme]
      | some [] => [theme]
      | some l => l
    suggested_flow := "4/4拍子、中テンポ"
    alternative_versions := [theme ++ "をテーマにした別バージョンも生成可能"] }

/-- Python `request.style or "modern"` (api_server.py line 206) where
`request.style : Optional[str]`: `None` and the empty string are falsy. -/
def pyStrOrModern (style : Option String) : String :=
  match style with
  | none => "modern"
  | some "" => "modern"
  | some s => s

/-- The fallback dict built in the `except` branch of the
`/api/generate-rap-suggestions` endpoint (api_server.py lines 203-215),
with the captured exception text `e`. -/
structure RapErrorFallback where
  status : String
  theme : String
  style : String
  lyrics : List String
  rhyme_pattern : String
  message : String
deriving DecidableEq

/-- The `fallback_result` dict of api_server.py lines 203-215. -/
def rap_error_fallback (theme : String) (style : Option String) (e : String) :
    RapErrorFallback :=
  { status := "error_fallback"
    theme := theme
    style := pyStrOrModern style
    lyrics :=
      [ theme ++ "の光、闇を照らす",
        "困難越えて、" ++ theme ++ "へ向かう",
        "信じる心、" ++ theme ++ "とともに",
        "未来へ歩む、" ++ theme ++ "の道" ]
    rhyme_pattern := "ABAB"
    message := "サーバーエラーのため基本ラップを生成: " ++ e }

/-- The body of a `/api/generate-rap-suggestions` response: either the
business-logic dict or the `except`-branch fallback dict. -/
inductive RapBody where
  | ok (r : RapResult)
  | errorFallback (b : RapErrorFallback)
deriving DecidableEq

/-- A JSONResponse of the rap endpoint: HTTP status code plus body. -/
structure RapResponse where
  status_code : Nat
  body : RapBody
deriving DecidableEq

/-- The `generate_rap_suggestions` endpoint handler (api_server.py lines
176-216).  The outcome of the `try` block's business-logic call is passed
in as `attempt : Except String RapResult` (an `Except.error e` stands for
a raised exception with text `e`).  The `if not result` substitution on
line 191 is unreachable: the dict returned by
`generate_rap_suggestions_for_gpt` is always non-empty, hence truthy, so
a successful attempt is returned as-is with status code 200.  An exception
is converted to `fallback_result` with status code 200. -/
def generate_rap_suggestions_endpoint (theme : String) (style : Option String)
    (attempt : Except String RapResult) : RapResponse :=
  match attempt with
  | Except.ok r => { status_code := 200, body := RapBody.ok r }
  | Except.error e =>
      { status_code := 200, body := RapBody.errorFallback (rap_error_fallback theme style e) }

/-- Substring containment: `t` occurs contiguously inside `s` (the
spec-level reading of a Python f-string line "containing" `theme`). -/
def strContains (s t : String) : Prop :=
  ∃ p q : List Char, s.data = p ++ t.data ++ q

/-- Every value stored in an association list with non-empty values is
non-empty when found by `List.lookup`. -/
theorem lookup_ne_nil_of_forall {l : List (String × List String)}
    (hvals : ∀ p ∈ l, p.2 ≠ []) :
    ∀ w v, l.lookup w = some v → v ≠ [] := by
  induction l with
  | nil => intro w v h; simp [List.lookup] at h
  | cons p t ih =>
    intro w v h
    cases p with
    | mk k val =>
      rw [List.lookup] at h
      cases hwk : (w == k) with
      | true =>
        rw [hwk] at h
        simp only [] at h
        cases h
        exact hvals (k, v) (by simp)
      | false =>
        rw [hwk] at h
        simp only [] at h
        exact ih (fun q hq => hvals q (List.mem_cons_of_mem _ hq)) w v h

/-- Every candidate list stored in the static rhyme dictionary is non-empty. -/
theorem sample_rhymes_vals_ne_nil :
    ∀ w v, sample_rhymes.lookup w = some v → v ≠ [] :=
  lookup_ne_nil_of_forall (by decide)

/-- Every template line of `generate_rap_suggestions_for_gpt` contains the
theme as a contiguous substring. -/
theorem mem_rap_templates_contains (theme line : String)
    (h : line ∈ rap_lyric_templates theme) : strContains line theme := by
  simp only [rap_lyric_templates, List.mem_cons, List.not_mem_nil, or_false] at h
  rcases h with h | h | h | h | h | h | h | h
  all_goals subst h
  · exact ⟨[], ("への道のり、心に刻む" : String).data, by simp [strContains, String.data_append]⟩
  · exact ⟨("困難を乗り越え、" : String).data, ("を見つめ" : String).data,
      by simp [strContains, String.data_append]⟩
  · exact ⟨("夢と現実、" : String).data, ("が導く" : String).data,
      by simp [strContains, String.data_append]⟩
  · exact ⟨("前進あるのみ、" : String).data, ("とともに" : String).data,
      by simp [strContains, String.data_append]⟩
  · exact ⟨("光差す未来、" : String).data, ("を信じて" : String).data,
      by simp [strContains, String.data_append]⟩
  · exact ⟨("歩み続ける、" : String).data, ("の力で" : String).data,
      by simp [strContains, String.data_append]⟩
  · exact ⟨("希望の歌声、" : String).data, ("響かせ" : String).data,
      by simp [strContains, String.data_append]⟩
  · exact ⟨("新たな明日、" : String).data, ("と歩もう" : String).data,
      by simp [strContains, String.data_append]⟩

/-- C1: for every word `w` that is a key of the rhyme table and every
positive `n`, `search_rhymes(w, n, s).rhymes` is the length-`min n
|table[w]|` prefix of `table[w]`, in the table's original order. -/
theorem c1_known_word_rhymes_are_table_prefix (w : String) (l : List String)
    (hw : sample_rhymes.lookup w = some l) (n : Nat) (hn : 0 < n) (s : Float) :
    (search_rhymes_for_gpt w n s).rhymes = l.take n ∧
    (search_rhymes_for_gpt w n s).rhymes.length = min n l.length ∧
    ∃ rest, (search_rhymes_for_gpt w n s).rhymes ++ rest = l := by
  have hr : (search_rhymes_for_gpt w n s).rhymes = l.take n := by
    simp [search_rhymes_for_gpt, sampleRhymesGet, hw]
  refine ⟨hr, ?_, ?_⟩
  · rw [hr]; exact List.length_take ..
  · exact ⟨l.drop n, by rw [hr]; exact List.take_append_drop ..⟩

/-- Witness for C1 at the table key `"愛"` with `n = 5`. -/
theorem c1_witness :
    (search_rhymes_for_gpt "愛" 5 0.7).rhymes =
      (["開", "海", "貝", "回", "会", "買", "台", "態", "代"] : List String).take 5 ∧
    (search_rhymes_for_gpt "愛" 5 0.7).rhymes.length =
      min 5 (["開", "海", "貝", "回", "会", "買", "台", "態", "代"] : List String).length ∧
    ∃ rest, (search_rhymes_for_gpt "愛" 5 0.7).rhymes ++ rest =
      ["開", "海", "貝", "回", "会", "買", "台", "態", "代"] :=
  c1_known_word_rhymes_are_table_prefix "愛"
    ["開", "海", "貝", "回", "会", "買", "台", "態", "代"] (by decide) 5 (by decide) 0.7

/-- C9: the concrete scenario `search_rhymes("愛", 5, 0.7)` returns status
`"success"` and rhymes `["開", "海", "貝", "回", "会"]`, the first 5 entries
of the table entry for `"愛"`. -/
theorem c9_concrete_ai_scenario :
    (search_rhymes_for_gpt "愛" 5 0.7).status = "success" ∧
    (search_rhymes_for_gpt "愛" 5 0.7).rhymes = ["開", "海", "貝", "回", "会"] ∧
    sample_rhymes.lookup "愛" = some ["開", "海", "貝", "回", "会", "買", "台", "態", "代"] ∧
    (["開", "海", "貝", "回", "会", "買", "台", "態", "代"] : List String).take 5 =
      ["開", "海", "貝", "回", "会"] := by
  refine ⟨rfl, by decide, by decide, by decide⟩

/-- C10: the `total_results` field of every search result equals the length
of its (already truncated) `rhymes` list. -/
theorem c10_total_results_eq_rhymes_length (w : String) (n : Nat) (s : Float) :
    (search_rhymes_for_gpt w n s).total_results =
      (search_rhymes_for_gpt w n s).rhymes.length := rfl

/-- C7: the `phonetic_similarity` parameter of `search_rhymes_for_gpt` and
the `detailed` parameter of `analyze_phonetics_for_gpt` are inert: two calls
differing only in that parameter return equal results. -/
theorem c7_inert_parameters :
    (∀ (w : String) (n : Nat) (s₁ s₂ : Float),
        search_rhymes_for_gpt w n s₁ = search_rhymes_for_gpt w n s₂) ∧
    (∀ (w : String) (d₁ d₂ : Bool),
        analyze_phonetics_for_gpt w d₁ = analyze_phonetics_for_gpt w d₂) :=
  ⟨fun _ _ _ _ => rfl, fun _ _ _ => rfl⟩

/-- C6: `analyze_phonetics(w).mora_count` equals the character length of `w`
for every `w`; for the empty string the mora, consonant and vowel counts are
all zero, and the ending-vowel field the program computes (the
`ending_vowel` of the search result's `phonetic_analysis`, the only
ending-vowel field in the code) is the empty string. -/
theorem c6_phonetics_counts (w : String) (d : Bool) (n : Nat) (s : Float) :
    (analyze_phonetics_for_gpt w d).mora_count = w.length ∧
    (analyze_phonetics_for_gpt "" d).mora_count = 0 ∧
    (analyze_phonetics_for_gpt "" d).phonetic_features.consonants = 0 ∧
    (analyze_phonetics_for_gpt "" d).phonetic_features.vowels = 0 ∧
    (search_rhymes_for_gpt "" n s).phonetic_analysis.ending_vowel = "" :=
  ⟨rfl, rfl, rfl, rfl, rfl⟩

/-- C2: whenever the rap endpoint's business logic raises, the handler
returns HTTP 200 with status `"error_fallback"`, exactly 4 lyric lines each
containing the literal theme, and the captured exception text embedded in
the message; and for every outcome of the business logic the handler's
status code is 200, so the endpoint never returns a server error. -/
theorem c2_rap_endpoint_error_fallback (theme : String) (style : Option String)
    (e : String) (attempt : Except String RapResult) :
    (generate_rap_suggestions_endpoint theme style attempt).status_code = 200 ∧
    (generate_rap_suggestions_endpoint theme style (Except.error e)).body =
      RapBody.errorFallback (rap_error_fallback theme style e) ∧
    (rap_error_fallback theme style e).status = "error_fallback" ∧
    (rap_error_fallback theme style e).lyrics.length = 4 ∧
    (∀ line ∈ (rap_error_fallback theme style e).lyrics, strContains line theme) ∧
    strContains (rap_error_fallback theme style e).message e := by
  refine ⟨by cases attempt <;> rfl, rfl, rfl, rfl, ?_, ?_⟩
  · intro line h
    simp only [rap_error_fallback, List.mem_cons, List.not_mem_nil, or_false] at h
    rcases h with h | h | h | h
    all_goals subst h
    · exact ⟨[], ("の光、闇を照らす" : String).data, by simp [String.data_append]⟩
    · exact ⟨("困難越えて、" : String).data, ("へ向かう" : String).data,
        by simp [String.data_append]⟩
    · exact ⟨("信じる心、" : String).data, ("とともに" : String).data,
        by simp [String.data_append]⟩
    · exact ⟨("未来へ歩む、" : String).data, ("の道" : String).data,
        by simp [String.data_append]⟩
  · exact ⟨("サーバーエラーのため基本ラップを生成: " : String).data, [],
      by simp [rap_error_fallback, String.data_append]⟩

/-- C3 counterexample: `"響"` is not a key of the rhyme table, and the
third synthesized candidate `"類似"` returned for it is not of the form
`"響" ++ marker` for any marker, refuting "each synthesized candidate is
formed by suffixing a fixed marker to w". -/
theorem c3_counterexample :
    sample_rhymes.lookup "響" = none ∧
    "類似" ∈ (search_rhymes_for_gpt "響" 3 0.7).rhymes ∧
    ∀ m : String, "類似" ≠ "響" ++ m := by
  refine ⟨by decide, by decide, ?_⟩
  intro m h
  have hd : ("類似" : String).data = ("響" : String).data ++ m.data := by
    rw [h, String.data_append]
  have hd2 : ('類' :: '似' :: [] : List Char) = '響' :: m.data := hd
  injection hd2 with hc _
  exact absurd hc (by decide)

/-- C3 amended: for every word `w` that is not a key of the rhyme table and
every positive `n`, the search returns status `"success"` and the first
`n` elements of the synthesized list `[w ++ "音", w ++ "韻", "類似"]`
(length `min n 3`): the first two candidates suffix a fixed marker to `w`,
while the third is the fixed string `"類似"`. -/
theorem c3_unknown_word_fallback (w : String)
    (hw : sample_rhymes.lookup w = none) (n : Nat) (hn : 0 < n) (s : Float) :
    (search_rhymes_for_gpt w n s).rhymes = [w ++ "音", w ++ "韻", "類似"].take n ∧
    (search_rhymes_for_gpt w n s).rhymes.length = min n 3 ∧
    (search_rhymes_for_gpt w n s).status = "success" := by
  have hr : (search_rhymes_for_gpt w n s).rhymes = [w ++ "音", w ++ "韻", "類似"].take n := by
    simp [search_rhymes_for_gpt, sampleRhymesGet, hw]
  exact ⟨hr, by rw [hr]; exact List.length_take .., rfl⟩

/-- Witness for the amended C3 at the non-key `"響"` with `n = 3`. -/
theorem c3_witness :
    (search_rhymes_for_gpt "響" 3 0.7).rhymes =
      ["響" ++ "音", "響" ++ "韻", "類似"].take 3 ∧
    (search_rhymes_for_gpt "響" 3 0.7).rhymes.length = min 3 3 ∧
    (search_rhymes_for_gpt "響" 3 0.7).status = "success" :=
  c3_unknown_word_fallback "響" (by decide) 3 (by decide) 0.7

/-- C4: for every theme, rhyme-word list, style and line budget, the
generated lyrics have length `min max_lines 8` and every line contains the
literal theme as a contiguous substring. -/
theorem c4_rap_lyrics_length_and_theme (theme : String)
    (rhyme_words : Option (List String)) (style : String) (max_lines : Nat) :
    (generate_rap_suggestions_for_gpt theme rhyme_words style max_lines).lyrics.length
      = min max_lines 8 ∧
    ∀ line ∈ (generate_rap_suggestions_for_gpt theme rhyme_words style max_lines).lyrics,
      strContains line theme := by
  constructor
  · show ((rap_lyric_templates theme).take max_lines).length = min max_lines 8
    rw [List.length_take]
    rfl
  · intro line h
    have h2 : line ∈ rap_lyric_templates theme :=
      List.mem_of_mem_take (by exact h)
    exact mem_rap_templates_contains theme line h2

/-- C5: for every word, positive `max_results` and similarity value, the
search returns status `"success"` with a non-empty rhymes list (never an
empty-result error); moreover every candidate list stored in the rhyme
table is non-empty, so no key of the table maps to an empty list. -/
theorem c5_search_always_success (w : String) (n : Nat) (s : Float)
    (hn : 0 < n) :
    (search_rhymes_for_gpt w n s).status = "success" ∧
    (search_rhymes_for_gpt w n s).rhymes ≠ [] ∧
    ∀ w' v, sample_rhymes.lookup w' = some v → v ≠ [] := by
  refine ⟨rfl, ?_, sample_rhymes_vals_ne_nil⟩
  show (sampleRhymesGet w [w ++ "音", w ++ "韻", "類似"]).take n ≠ []
  intro h
  rw [List.take_eq_nil_iff] at h
  rcases h with h | h
  · omega
  · unfold sampleRhymesGet at h
    cases hw : sample_rhymes.lookup w with
    | some v => rw [hw] at h; exact sample_rhymes_vals_ne_nil w v hw h
    | none => rw [hw] at h; simp at h

/-- Witness for C5 at the word `"愛"` with `n = 5`. -/
theorem c5_witness :
    (search_rhymes_for_gpt "愛" 5 0.7).status = "success" ∧
    (search_rhymes_for_gpt "愛" 5 0.7).rhymes ≠ [] ∧
    ∀ w' v, sample_rhymes.lookup w' = some v → v ≠ [] :=
  c5_search_always_success "愛" 5 0.7 (by decide)

/-- C8 counterexample: when the caller provides the empty list as
`rhyme_words`, the result's `used_rhyme_words` is `[theme]`, not the
provided empty list (Python `rhyme_words or [theme]` treats `[]` as falsy),
refuting "equals the provided rhyme_words list when one is given". -/
theorem c8_counterexample :
    (generate_rap_suggestions_for_gpt "夢" (some []) "modern" 8).used_rhyme_words = ["夢"] ∧
    (generate_rap_suggestions_for_gpt "夢" (some []) "modern" 8).used_rhyme_words ≠
      ([] : List String) := by
  exact ⟨rfl, by decide⟩

/-- C8 amended: `used_rhyme_words` equals the provided `rhyme_words` list
when a non-empty list is given, and equals `[theme]` when the argument is
omitted (`None`) or the provided list is empty. -/
theorem c8_used_rhyme_words (theme : String) (style : String)
    (max_lines : Nat) (l : List String) (hl : l ≠ []) :
    (generate_rap_suggestions_for_gpt theme none style max_lines).used_rhyme_words
      = [theme] ∧
    (generate_rap_suggestions_for_gpt theme (some []) style max_lines).used_rhyme_words
      = [theme] ∧
    (generate_rap_suggestions_for_gpt theme (some l) style max_lines).used_rhyme_words
      = l := by
  refine ⟨rfl, rfl, ?_⟩
  cases l with
  | nil => exact absurd rfl hl
  | cons a t => rfl

/-- Witness for the amended C8 with the non-empty list `["雲"]`. -/
theorem c8_witness :
    (generate_rap_suggestions_for_gpt "夢" none "modern" 8).used_rhyme_words = ["夢"] ∧
    (generate_rap_suggestions_for_gpt "夢" (some []) "modern" 8).used_rhyme_words = ["夢"] ∧
    (generate_rap_suggestions_for_gpt "夢" (some ["雲"]) "modern" 8).used_rhyme_words = ["雲"] :=
  c8_used_rhyme_words "夢" "modern" 8 ["雲"] (by decide)
